import Mathlib

/-!
Verification of the delivery core of `emaillib` (homeinfogmbh/emaillib).

The embedding below translates `Mailer` and its delivery protocol from
`src/emaillib.py` into Lean.  Messages are identified by natural-number ids;
the SMTP server's behaviour (whether connecting, STARTTLS, login and each
individual `send_message` succeed) is an explicit environment.  `Mailer._send`
is rendered as a pure function producing the ordered trace of observable
events (the debug print, connection, STARTTLS attempt, the clear-text
warning, login, per-message send attempts, error-log entries carrying only
the exception's text,
quit and session close) together with its Python outcome: a raised exception
or the returned boolean.
-/

namespace Emaillib

/-- Errors that abort `Mailer._send` (exceptions escaping the method):
connection failure from the `SMTP(...)` constructor, an `SSLError` or
`SMTPException` re-raised from `smtp.starttls()` when `self.ssl` is truthy,
and an authentication failure from `smtp.login(...)`. -/
inductive SendErr where
  | connectError
  | tlsError
  | authError
deriving DecidableEq, Repr

/-- Observable events of one `Mailer._send` invocation, in order:
`debugPrint` is the `print('DEBUG:', ...)` call (line 192), `connect` the
`SMTP(host, port)` session open, `starttls` an attempted `smtp.starttls()`,
`warnClearText` is `logger.warning('Connecting without SSL/TLS encryption.')`,
`login` a successful `smtp.login`, `sendAttempt e` one `smtp.send_message`
call for message `e`, `errorLog exc` is
`logger.error('Caught exception: %s.', exception)` (line 215) — it carries
only the exception's text, not the identity of the failed message, exactly
as the source's log call does — `quit` is `smtp.quit()` and `close` the
context-manager release of the session. -/
inductive Event where
  | debugPrint (fields : List String)
  | connect
  | starttls
  | warnClearText
  | login
  | sendAttempt (e : Nat)
  | errorLog (exc : String)
  | quit
  | close
deriving DecidableEq, Repr

/-- Behaviour of the SMTP server as seen by one `_send` call: whether the
session opens, whether STARTTLS succeeds, whether login succeeds, which
messages `send_message` accepts, and the text of the exception raised for a
message it rejects (the only thing the per-message `logger.error` call can
render). -/
structure SMTPEnv where
  connectOk : Bool
  starttlsOk : Bool
  loginOk : Bool
  sendOk : Nat → Bool
  sendExc : Nat → String

/-- The `Mailer` data (`Mailer.__init__`, lines 131-138): server, port,
login name, password and the tri-state `ssl` preference
(`none` = Python `None`, `some true` / `some false` = `True` / `False`). -/
structure Mailer where
  smtp_server : String
  smtp_port : Int
  login_name : String
  passwd : String
  ssl : Option Bool

/-- `Mailer.__str__` (lines 149-151):
`'{}:*****@{}:{}'.format(self.login_name, self.smtp_server, self.smtp_port)`. -/
def Mailer.__str__ (m : Mailer) : String :=
  m.login_name ++ ":*****@" ++ m.smtp_server ++ ":" ++ toString m.smtp_port

/-- The STARTTLS negotiation block of `_send` (lines 196-204).  Python:
`if self.ssl is None or self.ssl: try: smtp.starttls() except ...: if
self.ssl: raise; logger.warning(...)`.  Returns the emitted events and the
exception propagated, if any. -/
def tlsNegotiation (ssl : Option Bool) (env : SMTPEnv) :
    List Event × Option SendErr :=
  match ssl with
  | some false => ([], none)
  | some true =>
    if env.starttlsOk then ([Event.starttls], none)
    else ([Event.starttls], some SendErr.tlsError)
  | none =>
    if env.starttlsOk then ([Event.starttls], none)
    else ([Event.starttls, Event.warnClearText], none)

/-- The per-message loop of `_send` (lines 210-215): each email is passed
to `smtp.send_message` exactly once; a failure sets `result = False`, logs
the exception and continues.  Returns the emitted events and the final
`result` boolean. -/
def sendLoop (env : SMTPEnv) : List Nat → List Event × Bool
  | [] => ([], true)
  | e :: rest =>
    let r := sendLoop env rest
    if env.sendOk e then (Event.sendAttempt e :: r.1, r.2)
    else (Event.sendAttempt e :: Event.errorLog (env.sendExc e) :: r.1, false)

/-- `Mailer._send` (lines 189-219): debug print, open the session, negotiate
STARTTLS per the `ssl` preference, authenticate, send each message, quit,
and release the session on every exit path of the `with` block.  The outcome
is the raised exception or the returned `result` boolean. -/
def Mailer._send (m : Mailer) (env : SMTPEnv) (emails : List Nat) :
    List Event × Except SendErr Bool :=
  let dbg := Event.debugPrint
    [m.smtp_server, m.login_name, m.passwd, toString m.smtp_port]
  if env.connectOk then
    match tlsNegotiation m.ssl env with
    | (tlsTr, some e) =>
      (dbg :: Event.connect :: (tlsTr ++ [Event.close]), Except.error e)
    | (tlsTr, none) =>
      if env.loginOk then
        let loop := sendLoop env emails
        (dbg :: Event.connect ::
          (tlsTr ++ Event.login :: (loop.1 ++ [Event.quit, Event.close])),
         Except.ok loop.2)
      else
        (dbg :: Event.connect :: (tlsTr ++ [Event.close]),
         Except.error SendErr.authError)
  else ([dbg], Except.error SendErr.connectError)

/-- What `Mailer.send` (lines 180-187) hands back to its caller: with
`background=True` a started `Thread` handle wrapping the `_send`
computation, otherwise the value of `self._send(emails)` itself. -/
inductive SendReturn where
  | thread (run : List Event × Except SendErr Bool)
  | outcome (r : Except SendErr Bool)
deriving Repr

/-- `Mailer.send` (lines 180-187): `background` defaults to `True`, in which
case a thread running `_send` is started and the thread handle returned;
only with `background=False` is the `_send` outcome returned. -/
def Mailer.send (m : Mailer) (env : SMTPEnv) (emails : List Nat)
    (background : Bool := true) : SendReturn :=
  if background then SendReturn.thread (m._send env emails)
  else SendReturn.outcome (m._send env emails).2

/-- Extracts the exception text of an `errorLog` event. -/
def Event.errText : Event → Option String
  | Event.errorLog exc => some exc
  | _ => none

/-- Extracts the message id of a `sendAttempt` event. -/
def Event.attemptMsg : Event → Option Nat
  | Event.sendAttempt e => some e
  | _ => none

/-- From the spec's words (§4.3, §8): the subset of the batch whose
simulated transmission fails, in original relative order.  This is the
failed-set the spec says the partial-failure result carries; it is defined
from the spec, to be compared against what `_send` actually returns. -/
def specFailedSet (env : SMTPEnv) (emails : List Nat) : List Nat :=
  emails.filter (fun e => !env.sendOk e)

/-- Python exceptions arising inside `Mailer.from_config` (lines 153-178):
`TypeError` from `int(None)` and `ValueError` with its message, from a
failed numeric conversion, a failed boolean conversion, or an explicit
`raise ValueError(...)` in the method. -/
inductive PyErr where
  | typeError
  | valueError (msg : String)
deriving DecidableEq, Repr

/-- `config.get(key, fallback)`: the stored string for `key`, or the
already-evaluated fallback argument when the key is missing. -/
def cfgGet (cfg : String → Option String) (key : String)
    (fb : Option String) : Option String :=
  match cfg key with
  | some v => some v
  | none => fb

/-- Python `int(...)` applied to a config lookup that may have produced
`None`: `int(None)` raises `TypeError`, a non-numeric string raises
`ValueError`, a numeric string converts.  The result is typed `Option Int`
so that Python's `None` stays an expressible value of the assigned
variable, as the source's subsequent `is None` check requires; `int` itself
never produces that value. -/
def pyInt : Option String → Except PyErr (Option Int)
  | none => Except.error PyErr.typeError
  | some s =>
    match s.toInt? with
    | some n => Except.ok (some n)
    | none =>
      Except.error (PyErr.valueError "invalid literal for int() with base 10")

/-- `config.getboolean(key, fallback)` from `configparser`: a missing key
yields the fallback; otherwise the stored string must be one of the
recognised boolean states, else `ValueError` is raised. -/
def pyGetBoolean (v : Option String) (fb : Bool) : Except PyErr Bool :=
  match v with
  | none => Except.ok fb
  | some s =>
    if s.toLower = "1" ∨ s.toLower = "yes" ∨ s.toLower = "true" ∨
        s.toLower = "on" then Except.ok true
    else if s.toLower = "0" ∨ s.toLower = "no" ∨ s.toLower = "false" ∨
        s.toLower = "off" then Except.ok false
    else Except.error (PyErr.valueError ("Not a boolean: " ++ s))

/-- `Mailer.from_config` (lines 153-178): resolve each field through its
historical alias pair, raising on the first problem; the port is converted
with `int(...)` *before* the `is None` check on line 163.  The misspelt
message `'No login nane specified.'` is the source's own. -/
def Mailer.from_config (cfg : String → Option String) : Except PyErr Mailer :=
  match cfgGet cfg "smtp_server" (cfg "host") with
  | none => Except.error (PyErr.valueError "No SMTP server specified.")
  | some smtp_server =>
    match pyInt (cfgGet cfg "smtp_port" (cfg "port")) with
    | Except.error e => Except.error e
    | Except.ok smtp_port =>
      if smtp_port = none then
        Except.error (PyErr.valueError "No SMTP port specified.")
      else
        match cfgGet cfg "login_name" (cfg "user") with
        | none => Except.error (PyErr.valueError "No login nane specified.")
        | some login_name =>
          match cfgGet cfg "passwd" (cfg "password") with
          | none => Except.error (PyErr.valueError "No password specified.")
          | some passwd =>
            match pyGetBoolean (cfg "ssl") false with
            | Except.error e => Except.error e
            | Except.ok ssl =>
              Except.ok
                { smtp_server := smtp_server,
                  smtp_port := smtp_port.getD 0,
                  login_name := login_name,
                  passwd := passwd,
                  ssl := some ssl }

/-! ### Concrete fixtures -/

/-- A concrete mailer with the default (`None`) ssl preference. -/
def exMailer : Mailer :=
  { smtp_server := "smtp.example.com", smtp_port := 25,
    login_name := "alice", passwd := "hunter2", ssl := none }

/-- The same mailer with `ssl=True`. -/
def exMailerSSL : Mailer := { exMailer with ssl := some true }

/-- The same mailer with `ssl=False`. -/
def exMailerNoSSL : Mailer := { exMailer with ssl := some false }

/-- A fully cooperative server that rejects message `0` only. -/
def exEnv : SMTPEnv :=
  { connectOk := true, starttlsOk := true, loginOk := true,
    sendOk := fun e => e != 0,
    sendExc := fun _ => "(550, b'Recipient refused')" }

/-- A server on which every `send_message` fails. -/
def exEnvAllFail : SMTPEnv :=
  { connectOk := true, starttlsOk := true, loginOk := true,
    sendOk := fun _ => false,
    sendExc := fun _ => "Connection unexpectedly closed" }

/-- A server on which STARTTLS fails but everything else succeeds. -/
def exEnvNoTLS : SMTPEnv :=
  { connectOk := true, starttlsOk := false, loginOk := true,
    sendOk := fun _ => true,
    sendExc := fun _ => "" }

/-- A server that rejects the login credentials. -/
def exEnvBadAuth : SMTPEnv :=
  { connectOk := true, starttlsOk := true, loginOk := false,
    sendOk := fun _ => true,
    sendExc := fun _ => "" }

/-- A configuration section providing only the SMTP server, under its
primary key. -/
def exCfgServerOnly : String → Option String :=
  fun k => if k = "smtp_server" then some "mail.example.com" else none

/-! ### Helper lemmas about the pieces of `_send` -/

theorem sendLoop_attempts (env : SMTPEnv) (emails : List Nat) :
    (sendLoop env emails).1.filterMap Event.attemptMsg = emails := by
  induction emails with
  | nil => rfl
  | cons e rest ih =>
    by_cases h : env.sendOk e = true <;>
      simp [sendLoop, h, Event.attemptMsg, ih]

theorem sendLoop_errs (env : SMTPEnv) (emails : List Nat) :
    (sendLoop env emails).1.filterMap Event.errText =
      (specFailedSet env emails).map env.sendExc := by
  induction emails with
  | nil => rfl
  | cons e rest ih =>
    by_cases h : env.sendOk e = true <;>
      simp [sendLoop, h, Event.errText, specFailedSet, ih]

theorem sendLoop_result (env : SMTPEnv) (emails : List Nat) :
    (sendLoop env emails).2 = emails.all env.sendOk := by
  induction emails with
  | nil => rfl
  | cons e rest ih =>
    by_cases h : env.sendOk e = true <;> simp [sendLoop, h, ih]

theorem sendLoop_count_warn (env : SMTPEnv) (emails : List Nat) :
    (sendLoop env emails).1.count Event.warnClearText = 0 := by
  induction emails with
  | nil => rfl
  | cons e rest ih =>
    by_cases h : env.sendOk e = true <;>
      simp [sendLoop, h, List.count_cons, ih]

theorem tlsNegotiation_snd_none (ssl : Option Bool) (env : SMTPEnv)
    (h : ssl = some true → env.starttlsOk = true) :
    (tlsNegotiation ssl env).2 = none := by
  match ssl with
  | some false => rfl
  | some true => simp [tlsNegotiation, h rfl]
  | none =>
    by_cases hs : env.starttlsOk = true <;> simp [tlsNegotiation, hs]

theorem tlsNegotiation_no_attempt (ssl : Option Bool) (env : SMTPEnv) (e : Nat) :
    Event.sendAttempt e ∉ (tlsNegotiation ssl env).1 := by
  match ssl with
  | some false => simp [tlsNegotiation]
  | some true =>
    by_cases hs : env.starttlsOk = true <;> simp [tlsNegotiation, hs]
  | none =>
    by_cases hs : env.starttlsOk = true <;> simp [tlsNegotiation, hs]

theorem tlsNegotiation_filterMap_attempt (ssl : Option Bool) (env : SMTPEnv) :
    (tlsNegotiation ssl env).1.filterMap Event.attemptMsg = [] := by
  match ssl with
  | some false => rfl
  | some true =>
    by_cases hs : env.starttlsOk = true <;>
      simp [tlsNegotiation, hs, Event.attemptMsg]
  | none =>
    by_cases hs : env.starttlsOk = true <;>
      simp [tlsNegotiation, hs, Event.attemptMsg]

theorem tlsNegotiation_filterMap_err (ssl : Option Bool) (env : SMTPEnv) :
    (tlsNegotiation ssl env).1.filterMap Event.errText = [] := by
  match ssl with
  | some false => rfl
  | some true =>
    by_cases hs : env.starttlsOk = true <;>
      simp [tlsNegotiation, hs, Event.errText]
  | none =>
    by_cases hs : env.starttlsOk = true <;>
      simp [tlsNegotiation, hs, Event.errText]

theorem sendLoop_no_starttls (env : SMTPEnv) (emails : List Nat) :
    Event.starttls ∉ (sendLoop env emails).1 := by
  induction emails with
  | nil => simp [sendLoop]
  | cons e rest ih =>
    by_cases h : env.sendOk e = true <;> simp [sendLoop, h, ih]

theorem tlsNegotiation_starttls_mem (ssl : Option Bool) (env : SMTPEnv)
    (h : ssl ≠ some false) :
    Event.starttls ∈ (tlsNegotiation ssl env).1 := by
  match ssl with
  | some false => exact absurd rfl h
  | some true =>
    by_cases hs : env.starttlsOk = true <;> simp [tlsNegotiation, hs]
  | none =>
    by_cases hs : env.starttlsOk = true <;> simp [tlsNegotiation, hs]

/-- Shape of `_send` on the path where connection, negotiation (as permitted
by the policy) and login all succeed. -/
theorem _send_success_shape (m : Mailer) (env : SMTPEnv) (emails : List Nat)
    (hc : env.connectOk = true)
    (ht : m.ssl = some true → env.starttlsOk = true)
    (hl : env.loginOk = true) :
    m._send env emails =
      (Event.debugPrint
          [m.smtp_server, m.login_name, m.passwd, toString m.smtp_port] ::
        Event.connect ::
        ((tlsNegotiation m.ssl env).1 ++
          Event.login :: ((sendLoop env emails).1 ++ [Event.quit, Event.close])),
       Except.ok (sendLoop env emails).2) := by
  have hn := tlsNegotiation_snd_none m.ssl env ht
  unfold Mailer._send
  rw [hc]
  simp only [if_true]
  cases htls : tlsNegotiation m.ssl env with
  | mk tlsTr err =>
    rw [htls] at hn
    simp only at hn
    subst hn
    simp [hl]

/-! ### Claim theorems -/

/-- Claim C1, counterexample: `_send` does not report a partial-failure
result carrying exactly the failed messages.  Its result is the bare boolean
`False`: two batches with different failed-sets (per the spec's failed-set
`specFailedSet`) produce the identical result value, so the result cannot
carry which messages failed. -/
theorem send_result_forgets_failed_messages :
    (exMailer._send exEnvAllFail [0]).2 = Except.ok false ∧
    (exMailer._send exEnvAllFail [0]).2 = (exMailer._send exEnvAllFail [1]).2 ∧
    specFailedSet exEnvAllFail [0] ≠ specFailedSet exEnvAllFail [1] :=
  ⟨rfl, rfl, by decide⟩

/-- Claim C1 (amended): for every batch in which at least one message's
transmission fails (on the path where connect, policy-permitted negotiation
and login succeed), `_send` reports only the bare boolean `False` — an
overall-failure flag, not a partial-failure result carrying the failed
messages. -/
theorem send_partial_failure_returns_false (m : Mailer) (env : SMTPEnv)
    (emails : List Nat)
    (hc : env.connectOk = true)
    (ht : m.ssl = some true → env.starttlsOk = true)
    (hl : env.loginOk = true)
    (hf : ∃ e ∈ emails, env.sendOk e = false) :
    (m._send env emails).2 = Except.ok false := by
  rw [_send_success_shape m env emails hc ht hl]
  rcases hf with ⟨e, he, hfail⟩
  have : emails.all env.sendOk = false := by
    simp [List.all_eq_true]
    exact ⟨e, he, by simp [hfail]⟩
  simp [sendLoop_result, this]

/-- Claim C1 amended, witness at a concrete batch. -/
theorem send_partial_failure_returns_false_witness :
    (exMailer._send exEnvAllFail [3, 4]).2 = Except.ok false :=
  send_partial_failure_returns_false exMailer exEnvAllFail [3, 4]
    rfl (fun h => by simp [exMailer] at h) rfl ⟨3, by simp, rfl⟩

/-- Claim C2, counterexample: with `ssl=False` no STARTTLS is attempted
(that half of the claim holds), but the clear-text warning is NOT observable
once per batch — it is never emitted, because the warning lives in the
`except` branch of the skipped `starttls` attempt. -/
theorem ssl_disabled_no_warning_cex :
    Event.starttls ∉ (exMailerNoSSL._send exEnv [0, 1]).1 ∧
    (exMailerNoSSL._send exEnv [0, 1]).1.count Event.warnClearText ≠ 1 := by
  refine ⟨by decide, by decide⟩

/-- Claim C2 (amended): for every batch sent with `ssl=False`, no STARTTLS
is attempted regardless of server capability, and no clear-text warning is
emitted at all (zero warnings, not one). -/
theorem ssl_disabled_no_starttls_no_warning (m : Mailer) (env : SMTPEnv)
    (emails : List Nat) (h : m.ssl = some false) :
    Event.starttls ∉ (m._send env emails).1 ∧
    (m._send env emails).1.count Event.warnClearText = 0 := by
  by_cases hc : env.connectOk = true
  · by_cases hl : env.loginOk = true
    · simp [Mailer._send, hc, h, tlsNegotiation, hl, List.count_cons,
        List.count_append, sendLoop_count_warn, sendLoop_no_starttls]
    · simp [Mailer._send, hc, h, tlsNegotiation, hl, List.count_cons]
  · simp [Mailer._send, hc, List.count_cons]

/-- Claim C2 amended, witness at a concrete batch. -/
theorem ssl_disabled_no_starttls_no_warning_witness :
    Event.starttls ∉ (exMailerNoSSL._send exEnvNoTLS [0, 1]).1 ∧
    (exMailerNoSSL._send exEnvNoTLS [0, 1]).1.count Event.warnClearText = 0 :=
  ssl_disabled_no_starttls_no_warning exMailerNoSSL exEnvNoTLS [0, 1] rfl

/-- Claim C3: the code leaks the password.  `Mailer.__str__` does mask the
credential (`alice:*****@smtp.example.com:25`), but `_send` prints the
password in its `DEBUG:` line (`print('DEBUG:', self.smtp_server,
self.login_name, self._passwd, self.smtp_port)`, lines 192-193) on every
invocation, so the secret appears verbatim in the mailer's output. -/
theorem debug_print_leaks_password :
    exMailer.__str__ = "alice:*****@smtp.example.com:25" ∧
    Event.debugPrint ["smtp.example.com", "alice", "hunter2", "25"] ∈
      (exMailer._send exEnv []).1 :=
  ⟨rfl, by decide⟩

/-- Claim C4: with `ssl=True`, a STARTTLS failure propagates immediately:
`_send` raises the negotiation error, no message transmission is attempted,
login is never reached, and the session is released. -/
theorem ssl_required_tls_failure_aborts (m : Mailer) (env : SMTPEnv)
    (emails : List Nat) (h : m.ssl = some true)
    (hc : env.connectOk = true) (hs : env.starttlsOk = false) :
    (m._send env emails).2 = Except.error SendErr.tlsError ∧
    (m._send env emails).1.filterMap Event.attemptMsg = [] ∧
    Event.login ∉ (m._send env emails).1 ∧
    Event.close ∈ (m._send env emails).1 := by
  simp [Mailer._send, hc, h, tlsNegotiation, hs, Event.attemptMsg]

/-- Claim C4, witness at a concrete batch. -/
theorem ssl_required_tls_failure_aborts_witness :
    (exMailerSSL._send exEnvNoTLS [0, 1]).2 = Except.error SendErr.tlsError ∧
    (exMailerSSL._send exEnvNoTLS [0, 1]).1.filterMap Event.attemptMsg = [] ∧
    Event.login ∉ (exMailerSSL._send exEnvNoTLS [0, 1]).1 ∧
    Event.close ∈ (exMailerSSL._send exEnvNoTLS [0, 1]).1 :=
  ssl_required_tls_failure_aborts exMailerSSL exEnvNoTLS [0, 1] rfl rfl rfl

/-- Claim C5: with `ssl=None` (opportunistic), a STARTTLS failure does not
abort: `_send` continues unencrypted, attempts every message of the batch
normally, returns its ordinary boolean result, and emits the clear-text
warning exactly once. -/
theorem ssl_opportunistic_tls_failure_degrades (m : Mailer) (env : SMTPEnv)
    (emails : List Nat) (h : m.ssl = none)
    (hc : env.connectOk = true) (hs : env.starttlsOk = false)
    (hl : env.loginOk = true) :
    (m._send env emails).2 = Except.ok (emails.all env.sendOk) ∧
    (m._send env emails).1.count Event.warnClearText = 1 ∧
    (m._send env emails).1.filterMap Event.attemptMsg = emails := by
  rw [_send_success_shape m env emails hc (fun hh => by rw [h] at hh; cases hh) hl]
  refine ⟨by simp [sendLoop_result], ?_, ?_⟩
  · simp [h, tlsNegotiation, hs, List.count_cons, List.count_append,
      sendLoop_count_warn]
  · simp [Event.attemptMsg, tlsNegotiation_filterMap_attempt, sendLoop_attempts]

/-- Claim C5, witness at a concrete batch. -/
theorem ssl_opportunistic_tls_failure_degrades_witness :
    (exMailer._send exEnvNoTLS [1, 2]).2 = Except.ok ([1, 2].all exEnvNoTLS.sendOk) ∧
    (exMailer._send exEnvNoTLS [1, 2]).1.count Event.warnClearText = 1 ∧
    (exMailer._send exEnvNoTLS [1, 2]).1.filterMap Event.attemptMsg = [1, 2] :=
  ssl_opportunistic_tls_failure_degrades exMailer exEnvNoTLS [1, 2] rfl rfl rfl rfl

/-- Claim C6: once the sending phase is reached (connect, policy-permitted
negotiation and login succeed), the messages are attempted in the order
given and each exactly once — the send attempts in the trace are exactly
the batch, so a batch of `n` messages yields exactly `n` attempts — and a
per-message failure does not abort the batch: `_send` still returns its
ordinary boolean, which is `True` iff every message succeeded. -/
theorem batch_attempted_in_order_exactly_once (m : Mailer) (env : SMTPEnv)
    (emails : List Nat)
    (hc : env.connectOk = true)
    (ht : m.ssl = some true → env.starttlsOk = true)
    (hl : env.loginOk = true) :
    (m._send env emails).1.filterMap Event.attemptMsg = emails ∧
    (m._send env emails).2 = Except.ok (emails.all env.sendOk) := by
  rw [_send_success_shape m env emails hc ht hl]
  refine ⟨?_, by simp [sendLoop_result]⟩
  simp [Event.attemptMsg, tlsNegotiation_filterMap_attempt, sendLoop_attempts]

/-- Claim C6, witness: a three-message batch whose middle message fails is
attempted in full, in order. -/
theorem batch_attempted_in_order_exactly_once_witness :
    (exMailer._send exEnv [1, 0, 2]).1.filterMap Event.attemptMsg = [1, 0, 2] ∧
    (exMailer._send exEnv [1, 0, 2]).2 = Except.ok ([1, 0, 2].all exEnv.sendOk) :=
  batch_attempted_in_order_exactly_once exMailer exEnv [1, 0, 2] rfl
    (fun h => by simp [exMailer] at h) rfl

/-- Claim C7: authentication failure is fatal for the whole batch: `_send`
raises the authentication error instead of producing a boolean result, no
message transmission is attempted, and the session is still released. -/
theorem auth_failure_fatal_no_attempts (m : Mailer) (env : SMTPEnv)
    (emails : List Nat)
    (hc : env.connectOk = true)
    (ht : m.ssl = some true → env.starttlsOk = true)
    (hl : env.loginOk = false) :
    (m._send env emails).2 = Except.error SendErr.authError ∧
    (m._send env emails).1.filterMap Event.attemptMsg = [] ∧
    Event.close ∈ (m._send env emails).1 := by
  have hn := tlsNegotiation_snd_none m.ssl env ht
  have hfm := tlsNegotiation_filterMap_attempt m.ssl env
  unfold Mailer._send
  rw [hc]
  simp only [if_true]
  cases htls : tlsNegotiation m.ssl env with
  | mk tlsTr err =>
    rw [htls] at hn hfm
    simp only at hn hfm
    subst hn
    simp [hl, Event.attemptMsg, hfm]

/-- Claim C7, witness at a concrete batch. -/
theorem auth_failure_fatal_no_attempts_witness :
    (exMailer._send exEnvBadAuth [0, 1]).2 = Except.error SendErr.authError ∧
    (exMailer._send exEnvBadAuth [0, 1]).1.filterMap Event.attemptMsg = [] ∧
    Event.close ∈ (exMailer._send exEnvBadAuth [0, 1]).1 :=
  auth_failure_fatal_no_attempts exMailer exEnvBadAuth [0, 1] rfl
    (fun h => by simp [exMailer] at h) rfl

/-- Claim C8: the empty batch still runs the full session lifecycle — the
trace is exactly the debug print, the connect, the negotiation events of
the configured policy, then login, quit and close, with no send attempts —
and the operation reports success (`True`) with an empty failure set. -/
theorem empty_batch_full_lifecycle (m : Mailer) (env : SMTPEnv)
    (hc : env.connectOk = true)
    (ht : m.ssl = some true → env.starttlsOk = true)
    (hl : env.loginOk = true) :
    (m._send env []).2 = Except.ok true ∧
    (m._send env []).1 =
      Event.debugPrint
          [m.smtp_server, m.login_name, m.passwd, toString m.smtp_port] ::
        Event.connect ::
        ((tlsNegotiation m.ssl env).1 ++
          [Event.login, Event.quit, Event.close]) ∧
    (m._send env []).1.filterMap Event.errText = [] := by
  rw [_send_success_shape m env [] hc ht hl]
  refine ⟨by simp [sendLoop], by simp [sendLoop], ?_⟩
  simp [Event.errText, tlsNegotiation_filterMap_err, sendLoop]

/-- Claim C8, witness for the default mailer against a cooperative
server. -/
theorem empty_batch_full_lifecycle_witness :
    (exMailer._send exEnv []).2 = Except.ok true ∧
    (exMailer._send exEnv []).1 =
      Event.debugPrint
          [exMailer.smtp_server, exMailer.login_name, exMailer.passwd,
            toString exMailer.smtp_port] ::
        Event.connect ::
        ((tlsNegotiation exMailer.ssl exEnv).1 ++
          [Event.login, Event.quit, Event.close]) ∧
    (exMailer._send exEnv []).1.filterMap Event.errText = [] :=
  empty_batch_full_lifecycle exMailer exEnv rfl
    (fun h => by simp [exMailer] at h) rfl

/-- Claim C9: `Mailer.send` with its default `background=True` returns the
started thread handle wrapping the `_send` run — not the delivery outcome —
and the boolean computed by `_send` reaches the caller exactly when
`background=False` is passed. -/
theorem send_default_background_thread (m : Mailer) (env : SMTPEnv)
    (emails : List Nat) :
    m.send env emails = SendReturn.thread (m._send env emails) ∧
    m.send env emails ≠ SendReturn.outcome (m._send env emails).2 ∧
    m.send env emails false = SendReturn.outcome (m._send env emails).2 := by
  refine ⟨rfl, ?_, rfl⟩
  simp [Mailer.send]

/-- `pyInt` can only raise `TypeError`, raise the conversion `ValueError`,
or return an actual integer — never Python's `None`. -/
theorem pyInt_cases (v : Option String) :
    pyInt v = Except.error PyErr.typeError ∨
    pyInt v =
      Except.error (PyErr.valueError "invalid literal for int() with base 10") ∨
    ∃ n, pyInt v = Except.ok (some n) := by
  match v with
  | none => exact Or.inl rfl
  | some s =>
    cases h : s.toInt? with
    | none => exact Or.inr (Or.inl (by simp [pyInt, h]))
    | some n => exact Or.inr (Or.inr ⟨n, by simp [pyInt, h]⟩)

/-- `pyGetBoolean` either returns a boolean or raises the
`Not a boolean: ...` error. -/
theorem pyGetBoolean_cases (v : Option String) (fb : Bool) :
    (∃ b, pyGetBoolean v fb = Except.ok b) ∨
    (∃ s, pyGetBoolean v fb =
      Except.error (PyErr.valueError ("Not a boolean: " ++ s))) := by
  match v with
  | none => exact Or.inl ⟨fb, rfl⟩
  | some s =>
    by_cases h1 : s.toLower = "1" ∨ s.toLower = "yes" ∨ s.toLower = "true" ∨
        s.toLower = "on"
    · exact Or.inl ⟨true, by simp [pyGetBoolean, h1]⟩
    · by_cases h2 : s.toLower = "0" ∨ s.toLower = "no" ∨ s.toLower = "false" ∨
          s.toLower = "off"
      · exact Or.inl ⟨false, by simp [pyGetBoolean, h1, h2]⟩
      · exact Or.inr ⟨s, by simp [pyGetBoolean, h1, h2]⟩

/-- The boolean-conversion error message never coincides with the port
error message. -/
theorem notBoolean_ne (s : String) :
    ("Not a boolean: " ++ s) ≠ "No SMTP port specified." := by
  intro h
  have h2 : ("Not a boolean: " : String).data ++ s.data =
      ("No SMTP port specified." : String).data := by
    rw [← String.data_append, h]
  simp at h2

/-- Claim C10: the `raise ValueError('No SMTP port specified.')` branch of
`from_config` is unreachable: no configuration makes `from_config` report
that error, because when both `'smtp_port'` and `'port'` are missing the
conversion `int(None)` raises `TypeError` before the `is None` check is
reached (second conjunct, given that the server lookup checked earlier
succeeded), and a successful conversion never yields `None`. -/
theorem from_config_port_valueerror_unreachable (cfg : String → Option String) :
    Mailer.from_config cfg ≠
      Except.error (PyErr.valueError "No SMTP port specified.") ∧
    (cfgGet cfg "smtp_server" (cfg "host") ≠ none →
      cfg "smtp_port" = none → cfg "port" = none →
      Mailer.from_config cfg = Except.error PyErr.typeError) := by
  constructor
  · unfold Mailer.from_config
    cases cfgGet cfg "smtp_server" (cfg "host") with
    | none =>
      simp only [ne_eq, Except.error.injEq, PyErr.valueError.injEq]
      decide
    | some srv =>
      rcases pyInt_cases (cfgGet cfg "smtp_port" (cfg "port")) with
        h | h | ⟨n, h⟩ <;> rw [h]
      · simp
      · simp only [ne_eq, Except.error.injEq, PyErr.valueError.injEq]
        decide
      · simp only [Option.some_ne_none, if_false]
        cases cfgGet cfg "login_name" (cfg "user") with
        | none =>
          simp only [ne_eq, Except.error.injEq, PyErr.valueError.injEq]
          decide
        | some ln =>
          cases cfgGet cfg "passwd" (cfg "password") with
          | none =>
            simp only [ne_eq, Except.error.injEq, PyErr.valueError.injEq]
            decide
          | some pw =>
            rcases pyGetBoolean_cases (cfg "ssl") false with
              ⟨b, hb⟩ | ⟨s, hb⟩ <;> rw [hb]
            · simp
            · simp only [ne_eq, Except.error.injEq, PyErr.valueError.injEq]
              exact notBoolean_ne s
  · intro hsrv hp hq
    have hport : cfgGet cfg "smtp_port" (cfg "port") = none := by
      simp [cfgGet, hp, hq]
    unfold Mailer.from_config
    cases hs : cfgGet cfg "smtp_server" (cfg "host") with
    | none => exact absurd hs hsrv
    | some srv => rw [hport]; rfl

/-- Claim C10, witness: a configuration with a server but no port keys. -/
theorem from_config_port_valueerror_unreachable_witness :
    Mailer.from_config exCfgServerOnly ≠
      Except.error (PyErr.valueError "No SMTP port specified.") ∧
    Mailer.from_config exCfgServerOnly = Except.error PyErr.typeError :=
  ⟨(from_config_port_valueerror_unreachable exCfgServerOnly).1,
   (from_config_port_valueerror_unreachable exCfgServerOnly).2
     (by decide) (by decide) (by decide)⟩

end Emaillib
